import Mathlib

set_option autoImplicit false

/-!
Shallow embedding of the Open Payments client (gnap_client.py,
openpayments_client.py, resources_client.py).

External library primitives (hashlib SHA-256, the Ed25519 sign primitive of
the cryptography package, json.dumps serialisation, the OS randomness behind
secrets.token_urlsafe) are passed in as explicit function arguments: the
repository calls them but does not define them.  All request construction,
header building, truthiness tests, response handling and base64 / UTF-8
encoding are translated from the Python source.
-/

/-- JSON values, as produced by response.json() and consumed by json.dumps. -/
inductive Json where
  | null
  | bool (b : Bool)
  | str (s : String)
  | num (n : Int)
  | arr (elems : List Json)
  | obj (fields : List (String × Json))

/-- Lookup of a key in an association list, first match wins: the semantics
of a Python dict whose keys are inserted once. -/
def lookupKey {α : Type} : List (String × α) → String → Option α
  | [], _ => none
  | (k, v) :: rest, key => if k = key then some v else lookupKey rest key

/-- Field access on a JSON object, none on any other shape: data.get(key). -/
def Json.lookupField (j : Json) (key : String) : Option Json :=
  match j with
  | .obj fields => lookupKey fields key
  | _ => none

/-- Python dict assignment d[k] = v: update the value in place when the key
exists (keeping its position), append otherwise. -/
def dictInsert : List (String × String) → String → String → List (String × String)
  | [], key, v => [(key, v)]
  | (k2, v2) :: rest, key, v =>
      if k2 = key then (key, v) :: rest else (k2, v2) :: dictInsert rest key v

/-- UTF-8 encoding of one Unicode scalar value, as in str.encode(). -/
def utf8EncodeChar (n : Nat) : List Nat :=
  if n < 128 then [n]
  else if n < 2048 then [192 + n / 64, 128 + n % 64]
  else if n < 65536 then [224 + n / 4096, 128 + n / 64 % 64, 128 + n % 64]
  else [240 + n / 262144, 128 + n / 4096 % 64, 128 + n / 64 % 64, 128 + n % 64]

/-- UTF-8 encoding of a string, byte values as Nat: str.encode(). -/
def utf8Encode (s : String) : List Nat :=
  s.data.flatMap (fun c => utf8EncodeChar c.toNat)

/-- Standard base64 alphabet (RFC 4648 §4), used by base64.b64encode. -/
def stdAlphabet : List Char :=
  "ABCDEFGHIJKLMNOPQRSTUVWXYZabcdefghijklmnopqrstuvwxyz0123456789+/".toList

/-- URL-safe base64 alphabet (RFC 4648 §5), used by base64.urlsafe_b64encode. -/
def urlsafeAlphabet : List Char :=
  "ABCDEFGHIJKLMNOPQRSTUVWXYZabcdefghijklmnopqrstuvwxyz0123456789-_".toList

/-- Base64 encoding over a given alphabet: three input bytes become four
output characters; a trailing group of one or two bytes is padded with =. -/
def b64Chunks (alpha : List Char) : List Nat → List Char
  | b1 :: b2 :: b3 :: rest =>
      let n := b1 % 256 * 65536 + b2 % 256 * 256 + b3 % 256
      alpha.getD (n / 262144) 'A' :: alpha.getD (n / 4096 % 64) 'A'
        :: alpha.getD (n / 64 % 64) 'A' :: alpha.getD (n % 64) 'A' :: b64Chunks alpha rest
  | [b1, b2] =>
      let n := b1 % 256 * 65536 + b2 % 256 * 256
      [alpha.getD (n / 262144) 'A', alpha.getD (n / 4096 % 64) 'A',
       alpha.getD (n / 64 % 64) 'A', '=']
  | [b1] =>
      let n := b1 % 256 * 65536
      [alpha.getD (n / 262144) 'A', alpha.getD (n / 4096 % 64) 'A', '=', '=']
  | [] => []

/-- base64.b64encode(bytes).decode(): standard alphabet, with padding. -/
def b64encode (bs : List Nat) : String :=
  ⟨b64Chunks stdAlphabet bs⟩

/-- Strip trailing padding characters: bytes.rstrip applied to the = sign. -/
def rstripPad (cs : List Char) : List Char :=
  (cs.reverse.dropWhile (fun c => c = '=')).reverse

/-- secrets.token_urlsafe applied to the given random bytes: URL-safe base64
with the padding stripped.  The randomness itself comes from the OS and is
supplied here as the argument. -/
def token_urlsafe (randomBytes : List Nat) : String :=
  ⟨rstripPad (b64Chunks urlsafeAlphabet randomBytes)⟩

/-- The Ed25519 private key is loaded from disk by the cryptography package;
the embedding keeps only its signing capability. -/
structure Ed25519PrivateKey where
  sign : List Nat → List Nat

/-- Value of the Signature header emitted by both _sign_request methods. -/
def signatureHeaderValue (keyId sigB64 : String) : String :=
  "keyId=\"" ++ keyId ++ "\",algorithm=\"ed25519\",signature=\"" ++ sigB64 ++ "\""

/-- Value of the Signature-Input header emitted by both _sign_request
methods. -/
def signatureInputValue (timestamp : String) : String :=
  "sig1=();created=" ++ timestamp

/-- The canonical content to sign, shared verbatim by
GNAPClient._sign_request and OpenPaymentsClient._sign_request:
method, newline, url, newline, timestamp, and — only when the body argument
is truthy, i.e. present and non-empty — a newline and the standard base64
of the SHA-256 digest of the UTF-8 encoded body. -/
def content_to_sign (sha256 : List Nat → List Nat)
    (method url timestamp : String) (body : Option String) : String :=
  let base := method ++ "\n" ++ url ++ "\n" ++ timestamp
  match body with
  | some b => if b = "" then base else base ++ "\n" ++ b64encode (sha256 (utf8Encode b))
  | none => base

/-- Error taxonomy of the specification (§7).  The source code itself only
ever raises the HTTP status error, through response.raise_for_status(); the
remaining constructors exist so that the predicted failure modes are
statable. -/
inductive OPError where
  | signingError
  | protocolError
  | unexpectedInteractionRequired
  | invalidContinuation
  | httpError (status : Nat) (body : Json)
  | tokenExpired

/-- An HTTP response as seen by the client after parsing: status code and
JSON body. -/
structure HttpResponse where
  status : Nat
  body : Json

/-- response.raise_for_status() of httpx raises for every non-2xx status. -/
def raise_for_status (resp : HttpResponse) : Except OPError Unit :=
  if 200 ≤ resp.status ∧ resp.status < 300 then .ok ()
  else .error (.httpError resp.status resp.body)

/-- The outbound request an operation hands to the HTTP layer: the network
effect reified as data.  The body is kept as the JSON value the code passes
to json.dumps. -/
structure SentRequest where
  method : String
  url : String
  headers : List (String × String)
  body : Option Json

/-- AccessRight dataclass of gnap_client.py. -/
structure AccessRight where
  type : String
  actions : List String
  identifier : Option String := none
  limits : Option (List (String × Json)) := none

/-- Serialisation of one access right inside the grant request body:
identifier and limits are attached only when truthy (present, non-empty). -/
def accessRightJson (r : AccessRight) : Json :=
  Json.obj ([("type", Json.str r.type), ("actions", Json.arr (r.actions.map Json.str))]
    ++ (match r.identifier with
        | some s => if s = "" then [] else [("identifier", Json.str s)]
        | none => [])
    ++ (match r.limits with
        | some [] => []
        | some l => [("limits", Json.obj l)]
        | none => []))

/-- GNAPClient of gnap_client.py: Authorization Server URL, key id and the
loaded Ed25519 private key. -/
structure GNAPClient where
  auth_server_url : String
  client_key_id : String
  private_key : Ed25519PrivateKey

/-- GNAPClient._sign_request: starts from a Content-Type header, signs the
canonical content with the Ed25519 key and attaches the Signature and
Signature-Input headers.  The timestamp is produced by datetime.now and is
passed in. -/
def GNAPClient.sign_request (c : GNAPClient) (sha256 : List Nat → List Nat)
    (method url timestamp : String) (body : Option String) : List (String × String) :=
  let cts := content_to_sign sha256 method url timestamp body
  let signature_b64 := b64encode (c.private_key.sign (utf8Encode cts))
  [("Content-Type", "application/json"),
   ("Signature", signatureHeaderValue c.client_key_id signature_b64),
   ("Signature-Input", signatureInputValue timestamp)]

/-- GNAPClient._generate_nonce: secrets.token_urlsafe over 32 random bytes
supplied by the OS. -/
def GNAPClient.generate_nonce (randomBytes : List Nat) : String :=
  token_urlsafe randomBytes

/-- GNAPClient.request_grant_non_interactive: builds the grant request with
no interact member, signs and posts it, raises on non-2xx, and returns the
parsed response body unchanged. -/
def GNAPClient.request_grant_non_interactive (c : GNAPClient)
    (sha256 : List Nat → List Nat) (dumps : Json → String) (timestamp : String)
    (access_rights : List AccessRight) (client_id : String)
    (resp : HttpResponse) : SentRequest × Except OPError Json :=
  let grant_request := Json.obj
    [("access_token", Json.arr (access_rights.map accessRightJson)),
     ("client", Json.str client_id)]
  let body := dumps grant_request
  let url := c.auth_server_url ++ "/"
  let headers := c.sign_request sha256 "POST" url timestamp (some body)
  ({ method := "POST", url := url, headers := headers, body := some grant_request },
   match raise_for_status resp with
   | .error e => .error e
   | .ok _ => .ok resp.body)

/-- GNAPClient.request_grant_interactive: same as the non-interactive path
but with an interact member holding the redirect start mode and a finish
object with the redirect method, the given redirect uri and a fresh nonce. -/
def GNAPClient.request_grant_interactive (c : GNAPClient)
    (sha256 : List Nat → List Nat) (dumps : Json → String) (timestamp : String)
    (nonceRandomBytes : List Nat)
    (access_rights : List AccessRight) (client_id redirect_uri : String)
    (resp : HttpResponse) : SentRequest × Except OPError Json :=
  let grant_request := Json.obj
    [("access_token", Json.arr (access_rights.map accessRightJson)),
     ("client", Json.str client_id),
     ("interact", Json.obj
       [("start", Json.arr [Json.str "redirect"]),
        ("finish", Json.obj
          [("method", Json.str "redirect"),
           ("uri", Json.str redirect_uri),
           ("nonce", Json.str (GNAPClient.generate_nonce nonceRandomBytes))])])]
  let body := dumps grant_request
  let url := c.auth_server_url ++ "/"
  let headers := c.sign_request sha256 "POST" url timestamp (some body)
  ({ method := "POST", url := url, headers := headers, body := some grant_request },
   match raise_for_status resp with
   | .error e => .error e
   | .ok _ => .ok resp.body)

/-- GNAPClient.continue_grant: posts to the continuation URI with only a
GNAP bearer Authorization header and a Content-Type header, raises on
non-2xx, and returns the parsed response body unchanged.  The client keeps
no record of any earlier interaction handle. -/
def GNAPClient.continue_grant (c : GNAPClient)
    (continue_uri continue_token : String)
    (resp : HttpResponse) : SentRequest × Except OPError Json :=
  let headers := [("Authorization", "GNAP " ++ continue_token),
                  ("Content-Type", "application/json")]
  ({ method := "POST", url := continue_uri, headers := headers, body := none },
   match raise_for_status resp with
   | .error e => .error e
   | .ok _ => .ok resp.body)

/-- IncomingPayment dataclass as filled in by
ResourceClient.create_incoming_payment.  Dynamic fields read from the
response are kept as JSON values. -/
structure IncomingPayment where
  wallet_address : String
  incoming_amount : Json
  expires_at : Option String
  metadata : Option (List (String × Json))
  id : Option Json
  completed : Json
  received_amount : Option Json

/-- OutgoingPayment dataclass as filled in by
ResourceClient.create_outgoing_payment. -/
structure OutgoingPayment where
  wallet_address : String
  quote_id : String
  metadata : Option (List (String × Json))
  id : Option Json
  sent_amount : Option Json
  failed : Json

/-- Truthiness of an optional Python dict: false for None and for the empty
dict. -/
def dictPresent (d : Option (List (String × Json))) : Bool :=
  match d with
  | some (_ :: _) => true
  | _ => false

/-- ResourceClient of resources_client.py: Resource Server URL and the
bearer access token obtained from the Authorization Server. -/
structure ResourceClient where
  resource_server_url : String
  access_token : String

/-- ResourceClient.create_incoming_payment: bearer POST of the payload to
the incoming-payments endpoint; on 2xx builds an IncomingPayment whose id,
completed and receivedAmount come from data.get, with completed defaulting
to False. -/
def ResourceClient.create_incoming_payment (c : ResourceClient)
    (wallet_address : String) (incoming_amount : Json)
    (expires_at : Option String) (metadata : Option (List (String × Json)))
    (resp : HttpResponse) : SentRequest × Except OPError IncomingPayment :=
  let payload := Json.obj
    ([("walletAddress", Json.str wallet_address),
      ("incomingAmount", incoming_amount)]
     ++ (match expires_at with
         | some e => if e = "" then [] else [("expiresAt", Json.str e)]
         | none => [])
     ++ (if dictPresent metadata then [("metadata", Json.obj (metadata.getD []))] else []))
  let headers := [("Authorization", "GNAP " ++ c.access_token),
                  ("Content-Type", "application/json")]
  let url := c.resource_server_url ++ "/incoming-payments"
  ({ method := "POST", url := url, headers := headers, body := some payload },
   match raise_for_status resp with
   | .error e => .error e
   | .ok _ => .ok
      { wallet_address := wallet_address
        incoming_amount := incoming_amount
        expires_at := expires_at
        metadata := metadata
        id := resp.body.lookupField "id"
        completed := (resp.body.lookupField "completed").getD (Json.bool false)
        received_amount := resp.body.lookupField "receivedAmount" })

/-- ResourceClient.get_incoming_payment: bearer GET of the full resource URL
(the id returned at creation), returning the raw response dict. -/
def ResourceClient.get_incoming_payment (c : ResourceClient)
    (payment_id : String) (resp : HttpResponse) : SentRequest × Except OPError Json :=
  let headers := [("Authorization", "GNAP " ++ c.access_token),
                  ("Accept", "application/json")]
  ({ method := "GET", url := payment_id, headers := headers, body := none },
   match raise_for_status resp with
   | .error e => .error e
   | .ok _ => .ok resp.body)

/-- ResourceClient.create_outgoing_payment: bearer POST of the payload to
the outgoing-payments endpoint; on 2xx builds an OutgoingPayment whose id,
sentAmount and failed come from data.get, with failed defaulting to
False. -/
def ResourceClient.create_outgoing_payment (c : ResourceClient)
    (wallet_address quote_id : String) (metadata : Option (List (String × Json)))
    (resp : HttpResponse) : SentRequest × Except OPError OutgoingPayment :=
  let payload := Json.obj
    ([("walletAddress", Json.str wallet_address),
      ("quoteId", Json.str quote_id)]
     ++ (if dictPresent metadata then [("metadata", Json.obj (metadata.getD []))] else []))
  let headers := [("Authorization", "GNAP " ++ c.access_token),
                  ("Content-Type", "application/json")]
  let url := c.resource_server_url ++ "/outgoing-payments"
  ({ method := "POST", url := url, headers := headers, body := some payload },
   match raise_for_status resp with
   | .error e => .error e
   | .ok _ => .ok
      { wallet_address := wallet_address
        quote_id := quote_id
        metadata := metadata
        id := resp.body.lookupField "id"
        sent_amount := resp.body.lookupField "sentAmount"
        failed := (resp.body.lookupField "failed").getD (Json.bool false) })

/-- ResourceClient.get_outgoing_payment: bearer GET of the full resource
URL, returning the raw response dict. -/
def ResourceClient.get_outgoing_payment (c : ResourceClient)
    (payment_id : String) (resp : HttpResponse) : SentRequest × Except OPError Json :=
  let headers := [("Authorization", "GNAP " ++ c.access_token),
                  ("Accept", "application/json")]
  ({ method := "GET", url := payment_id, headers := headers, body := none },
   match raise_for_status resp with
   | .error e => .error e
   | .ok _ => .ok resp.body)

/-- OpenPaymentsClient of openpayments_client.py: wallet address, key id,
loaded key and the base URL derived from (or overriding) the wallet
address. -/
structure OpenPaymentsClient where
  wallet_address : String
  key_id : String
  private_key : Ed25519PrivateKey
  base_url : String

/-- OpenPaymentsClient._sign_request: starts from the given headers (an
empty dict when the caller passes none), signs the canonical content and
assigns the Signature, Signature-Input and Content-Type headers with dict
assignment semantics. -/
def OpenPaymentsClient.sign_request (c : OpenPaymentsClient)
    (sha256 : List Nat → List Nat) (method url timestamp : String)
    (body : Option String) (headers : List (String × String)) : List (String × String) :=
  let cts := content_to_sign sha256 method url timestamp body
  let signature_b64 := b64encode (c.private_key.sign (utf8Encode cts))
  dictInsert
    (dictInsert
      (dictInsert headers "Signature" (signatureHeaderValue c.key_id signature_b64))
      "Signature-Input" (signatureInputValue timestamp))
    "Content-Type" "application/json"

/-- OpenPaymentsClient.create_quote: requires exactly one of send_amount and
receive_amount (ValueError otherwise, modelled as the string error), signs
the POST to the quotes endpoint and returns the parsed response. -/
def OpenPaymentsClient.create_quote (c : OpenPaymentsClient)
    (sha256 : List Nat → List Nat) (dumps : Json → String) (timestamp : String)
    (receiver_wallet : String)
    (send_amount receive_amount : Option (List (String × Json)))
    (resp : HttpResponse) :
    Except String (SentRequest × Except OPError Json) :=
  let url := c.base_url ++ "/quotes"
  let base := [("walletAddress", Json.str receiver_wallet), ("method", Json.str "ilp")]
  if dictPresent send_amount ∨ dictPresent receive_amount then
    let payload := Json.obj (base ++
      (if dictPresent send_amount then [("sendAmount", Json.obj (send_amount.getD []))]
       else [("receiveAmount", Json.obj (receive_amount.getD []))]))
    let body := dumps payload
    let headers := c.sign_request sha256 "POST" url timestamp (some body) []
    .ok ({ method := "POST", url := url, headers := headers, body := some payload },
      match raise_for_status resp with
      | .error e => .error e
      | .ok _ => .ok resp.body)
  else
    .error "Debes especificar send_amount o receive_amount"

/-- OpenPaymentsClient.create_outgoing_payment: signs the POST of the
payload to the outgoing-payments endpoint of the base URL and returns the
parsed response. -/
def OpenPaymentsClient.create_outgoing_payment (c : OpenPaymentsClient)
    (sha256 : List Nat → List Nat) (dumps : Json → String) (timestamp : String)
    (quote_id wallet_address : String) (metadata : Option (List (String × Json)))
    (resp : HttpResponse) : SentRequest × Except OPError Json :=
  let url := c.base_url ++ "/outgoing-payments"
  let payload := Json.obj
    ([("walletAddress", Json.str wallet_address),
      ("quoteId", Json.str quote_id)]
     ++ (if dictPresent metadata then [("metadata", Json.obj (metadata.getD []))] else []))
  let body := dumps payload
  let headers := c.sign_request sha256 "POST" url timestamp (some body) []
  ({ method := "POST", url := url, headers := headers, body := some payload },
   match raise_for_status resp with
   | .error e => .error e
   | .ok _ => .ok resp.body)

/-- OpenPaymentsClient.get_wallet_info: unauthenticated, unsigned GET of the
public wallet address. -/
def OpenPaymentsClient.get_wallet_info (c : OpenPaymentsClient)
    (wallet_address : Option String) (resp : HttpResponse) :
    SentRequest × Except OPError Json :=
  let target := wallet_address.getD c.wallet_address
  ({ method := "GET", url := target, headers := [("Accept", "application/json")],
     body := none },
   match raise_for_status resp with
   | .error e => .error e
   | .ok _ => .ok resp.body)

/-- Parse a Signature header of the shape produced by the client back into
its keyId, algorithm and signature components. -/
def stripLit : List Char → List Char → Option (List Char)
  | [], s => some s
  | _ :: _, [] => none
  | c :: ps, d :: s => if c = d then stripLit ps s else none

/-- Split a character list at the first double quote, returning the part
before it and the part after it. -/
def splitAtQuote : List Char → Option (List Char × List Char)
  | [] => none
  | c :: rest =>
    if c = '"' then some ([], rest)
    else match splitAtQuote rest with
      | some (pre, post) => some (c :: pre, post)
      | none => none

/-- Parse keyId, algorithm and signature out of a Signature header value. -/
def parseSignatureHeader (h : String) : Option (String × String × String) :=
  match stripLit "keyId=\"".toList h.data with
  | none => none
  | some r1 =>
    match splitAtQuote r1 with
    | none => none
    | some (kid, r2) =>
      match stripLit ",algorithm=\"".toList r2 with
      | none => none
      | some r3 =>
        match splitAtQuote r3 with
        | none => none
        | some (alg, r4) =>
          match stripLit ",signature=\"".toList r4 with
          | none => none
          | some r5 =>
            match splitAtQuote r5 with
            | some (sig, []) => some (⟨kid⟩, ⟨alg⟩, ⟨sig⟩)
            | _ => none

theorem stripLit_append (p rest : List Char) : stripLit p (p ++ rest) = some rest := by
  induction p with
  | nil => rfl
  | cons c ps ih => simp [stripLit, ih]

theorem splitAtQuote_append (xs rest : List Char) (h : ∀ c ∈ xs, c ≠ '"') :
    splitAtQuote (xs ++ '"' :: rest) = some (xs, rest) := by
  induction xs with
  | nil => simp [splitAtQuote]
  | cons c cs ih =>
      have hc : c ≠ '"' := h c (by simp)
      have hih := ih (fun d hd => h d (by simp [hd]))
      simp [splitAtQuote, hc, hih]

theorem getD_mem {l : List Char} {d : Char} (i : Nat) (hd : d ∈ l) : l.getD i d ∈ l := by
  rcases Nat.lt_or_ge i l.length with h | h
  · rw [List.getD_eq_getElem l d h]; exact List.getElem_mem h
  · rw [List.getD_eq_default l d h]; exact hd

theorem b64Chunks_decomp (alpha : List Char) (hA : 'A' ∈ alpha) :
    ∀ bs : List Nat, ∃ good pads : List Char,
      b64Chunks alpha bs = good ++ pads
      ∧ (∀ ch ∈ good, ch ∈ alpha)
      ∧ (pads = [] ∨ pads = ['='] ∨ pads = ['=', '='])
      ∧ good.length = (4 * bs.length + 2) / 3
  | b1 :: b2 :: b3 :: rest => by
      obtain ⟨good, pads, he, hg, hp, hl⟩ := b64Chunks_decomp alpha hA rest
      refine ⟨alpha.getD ((b1 % 256 * 65536 + b2 % 256 * 256 + b3 % 256) / 262144) 'A'
          :: alpha.getD ((b1 % 256 * 65536 + b2 % 256 * 256 + b3 % 256) / 4096 % 64) 'A'
          :: alpha.getD ((b1 % 256 * 65536 + b2 % 256 * 256 + b3 % 256) / 64 % 64) 'A'
          :: alpha.getD ((b1 % 256 * 65536 + b2 % 256 * 256 + b3 % 256) % 64) 'A'
          :: good, pads, ?_, ?_, hp, ?_⟩
      · simp [b64Chunks, he]
      · intro ch hch
        simp only [List.mem_cons] at hch
        rcases hch with rfl | rfl | rfl | rfl | hch
        · exact getD_mem _ hA
        · exact getD_mem _ hA
        · exact getD_mem _ hA
        · exact getD_mem _ hA
        · exact hg ch hch
      · simp only [List.length_cons, hl, List.length_cons]
        omega
  | [b1, b2] => by
      refine ⟨[alpha.getD ((b1 % 256 * 65536 + b2 % 256 * 256) / 262144) 'A',
          alpha.getD ((b1 % 256 * 65536 + b2 % 256 * 256) / 4096 % 64) 'A',
          alpha.getD ((b1 % 256 * 65536 + b2 % 256 * 256) / 64 % 64) 'A'],
        ['='], by simp [b64Chunks], ?_, by simp, by simp⟩
      intro ch hch
      simp only [List.mem_cons] at hch
      rcases hch with rfl | rfl | rfl | h
      · exact getD_mem _ hA
      · exact getD_mem _ hA
      · exact getD_mem _ hA
      · cases h
  | [b1] => by
      refine ⟨[alpha.getD (b1 % 256 * 65536 / 262144) 'A',
          alpha.getD (b1 % 256 * 65536 / 4096 % 64) 'A'],
        ['=', '='], by simp [b64Chunks], ?_, by simp, by simp⟩
      intro ch hch
      simp only [List.mem_cons] at hch
      rcases hch with rfl | rfl | h
      · exact getD_mem _ hA
      · exact getD_mem _ hA
      · cases h
  | [] => ⟨[], [], by simp [b64Chunks], by simp, by simp, by simp⟩

theorem rstripPad_append_pads (good pads : List Char)
    (hg : ∀ c ∈ good, c ≠ '=') (hp : ∀ c ∈ pads, c = '=') :
    rstripPad (good ++ pads) = good := by
  unfold rstripPad
  rw [List.reverse_append, List.dropWhile_append]
  have h1 : pads.reverse.dropWhile (fun c => c = '=') = [] := by
    rw [List.dropWhile_eq_nil_iff]
    intro x hx
    simp [hp x (List.mem_reverse.mp hx)]
  have h2 : good.reverse.dropWhile (fun c => c = '=') = good.reverse := by
    cases hgr : good.reverse with
    | nil => rfl
    | cons c rest =>
        have hcg : c ∈ good := by
          rw [← List.mem_reverse, hgr]; simp
        simp [List.dropWhile_cons, hg c hcg]
  rw [h1, h2]
  simp

/-- Every character of a standard base64 encoding lies in the standard
alphabet or is padding; in particular no double quote ever appears. -/
theorem b64encode_no_quote (bs : List Nat) : ∀ ch ∈ (b64encode bs).data, ch ≠ '"' := by
  intro ch hch
  obtain ⟨good, pads, he, hg, hp, -⟩ := b64Chunks_decomp stdAlphabet (by decide) bs
  have hch2 : ch ∈ good ++ pads := by
    have : (b64encode bs).data = b64Chunks stdAlphabet bs := rfl
    rw [this, he] at hch
    exact hch
  rcases List.mem_append.mp hch2 with h | h
  · have := hg ch h
    intro he2
    subst he2
    revert this
    decide
  · have : ch = '=' := by
      rcases hp with rfl | rfl | rfl
      · cases h
      · simpa using h
      · simpa using h
    subst this
    decide

/-- Characters and length of a token_urlsafe nonce: URL-safe alphabet only,
and ceil(4n/3) characters for n random bytes. -/
theorem token_urlsafe_spec (bs : List Nat) :
    (∀ ch ∈ (token_urlsafe bs).data, ch ∈ urlsafeAlphabet)
    ∧ (token_urlsafe bs).length = (4 * bs.length + 2) / 3 := by
  obtain ⟨good, pads, he, hg, hp, hl⟩ := b64Chunks_decomp urlsafeAlphabet (by decide) bs
  have hgood : ∀ c ∈ good, c ≠ '=' := by
    intro c hc he2
    have := hg c hc
    rw [he2] at this
    revert this
    decide
  have hpads : ∀ c ∈ pads, c = '=' := by
    intro c hc
    rcases hp with rfl | rfl | rfl
    · cases hc
    · simpa using hc
    · simpa using hc
  have hdata : (token_urlsafe bs).data = good := by
    show rstripPad (b64Chunks urlsafeAlphabet bs) = good
    rw [he]
    exact rstripPad_append_pads good pads hgood hpads
  constructor
  · intro ch hch
    rw [hdata] at hch
    exact hg ch hch
  · show (token_urlsafe bs).data.length = _
    rw [hdata, hl]

theorem parseSignatureHeader_of_value (keyId sigB64 : String)
    (hk : ∀ ch ∈ keyId.data, ch ≠ '"') (hs : ∀ ch ∈ sigB64.data, ch ≠ '"') :
    parseSignatureHeader (signatureHeaderValue keyId sigB64)
      = some (keyId, "ed25519", sigB64) := by
  have halg : ∀ ch ∈ ("ed25519").data, ch ≠ '"' := by decide
  have hdata : (signatureHeaderValue keyId sigB64).data
      = "keyId=\"".toList ++ (keyId.data ++ ('"' ::
          (",algorithm=\"".toList ++ (("ed25519").data ++ ('"' ::
            (",signature=\"".toList ++ (sigB64.data ++ ('"' :: ([] : List Char))))))))) := by
    show ("keyId=\"" ++ keyId ++ "\",algorithm=\"ed25519\",signature=\"" ++ sigB64 ++ "\"").data = _
    simp only [String.data_append, List.append_assoc]
    rfl
  have h1 : stripLit "keyId=\"".toList (signatureHeaderValue keyId sigB64).data
      = some (keyId.data ++ ('"' ::
          (",algorithm=\"".toList ++ (("ed25519").data ++ ('"' ::
            (",signature=\"".toList ++ (sigB64.data ++ ('"' :: ([] : List Char))))))))) := by
    rw [hdata]; exact stripLit_append _ _
  have h2 := splitAtQuote_append keyId.data
    (",algorithm=\"".toList ++ (("ed25519").data ++ ('"' ::
      (",signature=\"".toList ++ (sigB64.data ++ ('"' :: ([] : List Char))))))) hk
  have h3 := stripLit_append ",algorithm=\"".toList
    (("ed25519").data ++ ('"' :: (",signature=\"".toList ++ (sigB64.data ++ ('"' :: ([] : List Char))))))
  have h4 := splitAtQuote_append ("ed25519").data
    (",signature=\"".toList ++ (sigB64.data ++ ('"' :: ([] : List Char)))) halg
  have h5 := stripLit_append ",signature=\"".toList (sigB64.data ++ ('"' :: ([] : List Char)))
  have h6 := splitAtQuote_append sigB64.data [] hs
  simp only [parseSignatureHeader, h1, h2, h3, h4, h5, h6]

/-- A stand-in signing function for concrete evaluations: external key
material is opaque to the client, so any function of the message works as a
concrete instance. -/
def sampleKey : Ed25519PrivateKey := ⟨fun bs => bs.take 64⟩

/-- Concrete GNAP client used in concrete evaluations. -/
def sampleGNAP : GNAPClient :=
  { auth_server_url := "https://auth.example"
    client_key_id := "key-1"
    private_key := sampleKey }

/-- Concrete OpenPayments client used in concrete evaluations. -/
def sampleOP : OpenPaymentsClient :=
  { wallet_address := "https://ilp.example/alice"
    key_id := "key-1"
    private_key := sampleKey
    base_url := "https://ilp.example" }

/-- Concrete resource client used in concrete evaluations. -/
def sampleRC : ResourceClient :=
  { resource_server_url := "https://rs.example"
    access_token := "tok1" }

/-- C1: the sign operation builds the canonical string METHOD, newline, URL,
newline, timestamp, plus — when a body is present (non-empty) — a newline
and the base64 of the SHA-256 digest of the body; it signs the UTF-8 bytes
of that string with the Ed25519 key and emits the Signature header
keyId="<id>",algorithm="ed25519",signature="<b64>" together with a
Signature-Input header recording the creation timestamp, in both client
implementations. -/
theorem sign_request_canonical (sha256 : List Nat → List Nat)
    (c : GNAPClient) (c2 : OpenPaymentsClient)
    (method url timestamp : String) (body : Option String) :
    content_to_sign sha256 method url timestamp none
        = method ++ "\n" ++ url ++ "\n" ++ timestamp
    ∧ (∀ b : String, b ≠ "" →
        content_to_sign sha256 method url timestamp (some b)
          = method ++ "\n" ++ url ++ "\n" ++ timestamp ++ "\n"
              ++ b64encode (sha256 (utf8Encode b)))
    ∧ lookupKey (c.sign_request sha256 method url timestamp body) "Signature"
        = some ("keyId=\"" ++ c.client_key_id ++ "\",algorithm=\"ed25519\",signature=\""
            ++ b64encode (c.private_key.sign
                 (utf8Encode (content_to_sign sha256 method url timestamp body))) ++ "\"")
    ∧ lookupKey (c.sign_request sha256 method url timestamp body) "Signature-Input"
        = some ("sig1=();created=" ++ timestamp)
    ∧ lookupKey (c2.sign_request sha256 method url timestamp body []) "Signature"
        = some ("keyId=\"" ++ c2.key_id ++ "\",algorithm=\"ed25519\",signature=\""
            ++ b64encode (c2.private_key.sign
                 (utf8Encode (content_to_sign sha256 method url timestamp body))) ++ "\"")
    ∧ lookupKey (c2.sign_request sha256 method url timestamp body []) "Signature-Input"
        = some ("sig1=();created=" ++ timestamp) := by
  refine ⟨rfl, ?_, ?_, ?_, ?_, ?_⟩
  · intro b hb
    simp [content_to_sign, hb]
  · simp [GNAPClient.sign_request, lookupKey, signatureHeaderValue]
  · simp [GNAPClient.sign_request, lookupKey, signatureInputValue]
  · simp [OpenPaymentsClient.sign_request, dictInsert, lookupKey, signatureHeaderValue]
  · simp [OpenPaymentsClient.sign_request, dictInsert, lookupKey, signatureInputValue]

/-- C1 witness: concrete evaluation of the canonical string and the
Signature-Input header. -/
theorem sign_request_canonical_witness :
    content_to_sign (fun bs => bs) "POST" "https://as/" "T0" (some "x")
        = "POST\nhttps://as/\nT0\neA=="
    ∧ lookupKey (sampleGNAP.sign_request (fun bs => bs) "POST" "https://as/" "T0" (some "x"))
        "Signature-Input" = some "sig1=();created=T0" := by
  have h := sign_request_canonical (fun bs => bs) sampleGNAP sampleOP "POST" "https://as/" "T0"
    (some "x")
  refine ⟨?_, ?_⟩
  · rw [h.2.1 "x" (by decide)]
    rfl
  · rw [h.2.2.2.1]
    rfl

/-- C2 counterexample: when the server answers a non-interactive grant
request with a 200 response carrying an interaction handle, the operation
returns that response to the caller; it does not fail with
UnexpectedInteractionRequired (the client code has no such check). -/
theorem request_grant_non_interactive_returns_interact_response :
    (sampleGNAP.request_grant_non_interactive (fun bs => bs) (fun _ => "d") "T0"
        [{ type := "quote", actions := ["create", "read"] }] "client-1"
        ⟨200, Json.obj [("interact", Json.obj [("redirect", Json.str "https://as/interact/abc")])]⟩).2
      = .ok (Json.obj [("interact", Json.obj [("redirect", Json.str "https://as/interact/abc")])])
    ∧ (Except.ok (Json.obj [("interact", Json.obj [("redirect", Json.str "https://as/interact/abc")])])
        ≠ (Except.error .unexpectedInteractionRequired : Except OPError Json)) :=
  ⟨rfl, fun h => Except.noConfusion h⟩

/-- C2 amended: for every 2xx server response — in particular one carrying
an interaction handle — request_grant_non_interactive returns the response
body unchanged to the caller; no UnexpectedInteractionRequired failure
exists. -/
theorem request_grant_non_interactive_passthrough (c : GNAPClient)
    (sha256 : List Nat → List Nat) (dumps : Json → String) (timestamp : String)
    (rights : List AccessRight) (client_id : String) (resp : HttpResponse)
    (h2xx : 200 ≤ resp.status ∧ resp.status < 300) :
    (c.request_grant_non_interactive sha256 dumps timestamp rights client_id resp).2
      = .ok resp.body := by
  simp [GNAPClient.request_grant_non_interactive, raise_for_status, h2xx]

/-- C2 amended witness: concrete pass-through of an interact response. -/
theorem request_grant_non_interactive_passthrough_witness :
    (sampleGNAP.request_grant_non_interactive (fun bs => bs) (fun _ => "d") "T0"
        [] "client-1" ⟨200, Json.obj [("interact", Json.str "h")]⟩).2
      = .ok (Json.obj [("interact", Json.str "h")]) :=
  request_grant_non_interactive_passthrough sampleGNAP (fun bs => bs) (fun _ => "d") "T0"
    [] "client-1" ⟨200, Json.obj [("interact", Json.str "h")]⟩ (by decide)

/-- C3 counterexample: a 200 response whose body is the empty JSON object —
neither an access token nor an interaction handle — is returned unchanged by
both grant operations; neither fails with ProtocolError (the code has no
such check). -/
theorem grant_operations_accept_empty_response :
    (sampleGNAP.request_grant_non_interactive (fun bs => bs) (fun _ => "d") "T0"
        [] "client-1" ⟨200, Json.obj []⟩).2 = .ok (Json.obj [])
    ∧ (sampleGNAP.request_grant_interactive (fun bs => bs) (fun _ => "d") "T0"
        (List.replicate 32 0) [] "client-1" "https://cb" ⟨200, Json.obj []⟩).2
      = .ok (Json.obj [])
    ∧ (Except.ok (Json.obj []) ≠ (Except.error .protocolError : Except OPError Json)) :=
  ⟨rfl, rfl, fun h => Except.noConfusion h⟩

/-- C3 amended: for every 2xx response whose body carries neither an
access_token nor an interact member, both grant operations return that body
unchanged to the caller; no ProtocolError failure exists. -/
theorem grant_operations_no_protocol_error (c : GNAPClient)
    (sha256 : List Nat → List Nat) (dumps : Json → String) (timestamp : String)
    (rb : List Nat) (rights : List AccessRight) (client_id redirect_uri : String)
    (resp : HttpResponse)
    (h2xx : 200 ≤ resp.status ∧ resp.status < 300)
    (hnotok : resp.body.lookupField "access_token" = none)
    (hnoint : resp.body.lookupField "interact" = none) :
    (c.request_grant_non_interactive sha256 dumps timestamp rights client_id resp).2
        = .ok resp.body
    ∧ (c.request_grant_interactive sha256 dumps timestamp rb rights client_id redirect_uri resp).2
        = .ok resp.body := by
  constructor
  · simp [GNAPClient.request_grant_non_interactive, raise_for_status, h2xx]
  · simp [GNAPClient.request_grant_interactive, raise_for_status, h2xx]

/-- C3 amended witness: concrete pass-through of the empty object. -/
theorem grant_operations_no_protocol_error_witness :
    (sampleGNAP.request_grant_non_interactive (fun bs => bs) (fun _ => "d") "T0"
        [] "client-1" ⟨200, Json.obj []⟩).2 = .ok (Json.obj []) :=
  (grant_operations_no_protocol_error sampleGNAP (fun bs => bs) (fun _ => "d") "T0"
    (List.replicate 32 0) [] "client-1" "https://cb" ⟨200, Json.obj []⟩
    (by decide) rfl rfl).1

/-- C4 counterexample: continue_grant invoked on a fresh client that never
received an interaction handle — the operation keeps no record of one and
takes none as input — succeeds and returns the token response; it does not
fail with InvalidContinuation. -/
theorem continue_grant_succeeds_without_prior_handle :
    (sampleGNAP.continue_grant "https://as/continue/1" "ct-1"
        ⟨200, Json.obj [("access_token", Json.obj [("value", Json.str "tok1")])]⟩).2
      = .ok (Json.obj [("access_token", Json.obj [("value", Json.str "tok1")])])
    ∧ (Except.ok (Json.obj [("access_token", Json.obj [("value", Json.str "tok1")])])
        ≠ (Except.error .invalidContinuation : Except OPError Json)) :=
  ⟨rfl, fun h => Except.noConfusion h⟩

/-- C4 amended: continue_grant is stateless — it requires no prior
PENDING_INTERACTION response, always issues the bearer continuation POST,
returns every 2xx body unchanged, and its only failure mode is the HTTP
status error; it never fails with InvalidContinuation. -/
theorem continue_grant_stateless (c : GNAPClient) (uri tok : String) (resp : HttpResponse) :
    (c.continue_grant uri tok resp).1.headers
        = [("Authorization", "GNAP " ++ tok), ("Content-Type", "application/json")]
    ∧ (∀ e, (c.continue_grant uri tok resp).2 = .error e
        → e = .httpError resp.status resp.body)
    ∧ (200 ≤ resp.status ∧ resp.status < 300
        → (c.continue_grant uri tok resp).2 = .ok resp.body) := by
  refine ⟨rfl, ?_, ?_⟩
  · intro e he
    by_cases h : 200 ≤ resp.status ∧ resp.status < 300
    · simp [GNAPClient.continue_grant, raise_for_status, h] at he
    · simp [GNAPClient.continue_grant, raise_for_status, h] at he
      exact he.symm
  · intro h
    simp [GNAPClient.continue_grant, raise_for_status, h]

/-- C4 amended witness: concrete stateless continuation call. -/
theorem continue_grant_stateless_witness :
    (sampleGNAP.continue_grant "https://as/c" "t" ⟨200, Json.null⟩).2 = .ok Json.null :=
  (continue_grant_stateless sampleGNAP "https://as/c" "t" ⟨200, Json.null⟩).2.2 (by decide)

/-- C5 counterexample: a 401 from create_incoming_payment surfaces as the
generic HTTP status error, not as TokenExpired (the code has no 401
special-case). -/
theorem resource_401_is_generic_http_error :
    (sampleRC.create_incoming_payment "https://ilp.example/bob"
        (Json.obj [("value", Json.str "500")]) none none ⟨401, Json.obj []⟩).2
      = .error (.httpError 401 (Json.obj []))
    ∧ ((Except.error (.httpError 401 (Json.obj [])) : Except OPError IncomingPayment)
        ≠ .error .tokenExpired) := by
  refine ⟨rfl, ?_⟩
  intro h
  injection h with h2
  exact OPError.noConfusion h2

/-- C5 amended: a 401 from every ResourceClient operation surfaces as the
generic HTTP status error carrying status 401 and the response body; no
TokenExpired distinction exists in the code. -/
theorem resource_401_http_error (c : ResourceClient) (wa qid pid : String) (amt : Json)
    (ea : Option String) (md : Option (List (String × Json))) (body : Json) :
    (c.create_incoming_payment wa amt ea md ⟨401, body⟩).2 = .error (.httpError 401 body)
    ∧ (c.get_incoming_payment pid ⟨401, body⟩).2 = .error (.httpError 401 body)
    ∧ (c.create_outgoing_payment wa qid md ⟨401, body⟩).2 = .error (.httpError 401 body)
    ∧ (c.get_outgoing_payment pid ⟨401, body⟩).2 = .error (.httpError 401 body) :=
  ⟨rfl, rfl, rfl, rfl⟩

/-- C6: the interactive grant request body carries an interact descriptor
with start ["redirect"] and a finish object holding the redirect method, the
callers redirectUri and a nonce generated from 32 fresh OS random bytes,
URL-safe encoded (43 characters, all in the URL-safe alphabet); the
non-interactive request body carries no interact member at all. -/
theorem interactive_grant_interact_descriptor (c : GNAPClient)
    (sha256 : List Nat → List Nat) (dumps : Json → String) (timestamp : String)
    (rb : List Nat) (rights : List AccessRight) (client_id redirect_uri : String)
    (resp : HttpResponse) (hrb : rb.length = 32) :
    (c.request_grant_interactive sha256 dumps timestamp rb rights client_id redirect_uri resp).1.body
      = some (Json.obj
          [("access_token", Json.arr (rights.map accessRightJson)),
           ("client", Json.str client_id),
           ("interact", Json.obj
             [("start", Json.arr [Json.str "redirect"]),
              ("finish", Json.obj
                [("method", Json.str "redirect"),
                 ("uri", Json.str redirect_uri),
                 ("nonce", Json.str (token_urlsafe rb))])])])
    ∧ (∀ ch ∈ (token_urlsafe rb).data, ch ∈ urlsafeAlphabet)
    ∧ (token_urlsafe rb).length = 43
    ∧ (c.request_grant_non_interactive sha256 dumps timestamp rights client_id resp).1.body
      = some (Json.obj
          [("access_token", Json.arr (rights.map accessRightJson)),
           ("client", Json.str client_id)]) := by
  refine ⟨rfl, (token_urlsafe_spec rb).1, ?_, rfl⟩
  rw [(token_urlsafe_spec rb).2, hrb]

/-- C6 witness: a concrete 32-byte random input yields a 43-character
URL-safe nonce and the expected request bodies. -/
theorem interactive_grant_interact_descriptor_witness :
    (List.replicate 32 7).length = 32
    ∧ (token_urlsafe (List.replicate 32 7)).length = 43
    ∧ (sampleGNAP.request_grant_non_interactive (fun bs => bs) (fun _ => "d") "T0"
        [] "client-1" ⟨200, Json.obj []⟩).1.body
      = some (Json.obj [("access_token", Json.arr []), ("client", Json.str "client-1")]) := by
  have h := interactive_grant_interact_descriptor sampleGNAP (fun bs => bs) (fun _ => "d") "T0"
    (List.replicate 32 7) [] "client-1" "https://cb" ⟨200, Json.obj []⟩ (by decide)
  exact ⟨by decide, h.2.2.1, h.2.2.2⟩

/-- C7 counterexample: OpenPaymentsClient.create_outgoing_payment is neither
a grant-negotiation nor a quote-creation request, yet the request it sends
carries an Ed25519 Signature header (and a Signature-Input header). -/
theorem openpayments_outgoing_payment_is_signed :
    (sampleOP.create_outgoing_payment (fun bs => bs) (fun _ => "d") "T0"
        "q1" "https://ilp.example/alice" none ⟨201, Json.null⟩).1.url
      = "https://ilp.example/outgoing-payments"
    ∧ (lookupKey ((sampleOP.create_outgoing_payment (fun bs => bs) (fun _ => "d") "T0"
        "q1" "https://ilp.example/alice" none ⟨201, Json.null⟩).1.headers) "Signature").isSome
      = true
    ∧ (lookupKey ((sampleOP.create_outgoing_payment (fun bs => bs) (fun _ => "d") "T0"
        "q1" "https://ilp.example/alice" none ⟨201, Json.null⟩).1.headers) "Signature-Input").isSome
      = true :=
  ⟨rfl, rfl, rfl⟩

/-- C7 amended: grant continuation and all four ResourceClient operations
carry only the bearer GNAP Authorization header plus a content-type or
accept header — no Signature or Signature-Input headers; Ed25519 signing is
applied to grant-negotiation, quote-creation and the OpenPayments
outgoing-payment-creation requests (the unauthenticated wallet lookup is
unsigned as well). -/
theorem bearer_only_requests (c : GNAPClient) (c2 : OpenPaymentsClient) (rc : ResourceClient)
    (sha256 : List Nat → List Nat) (dumps : Json → String)
    (uri tok wa qid pid timestamp : String) (amt : Json)
    (ea : Option String) (md : Option (List (String × Json))) (resp : HttpResponse) :
    (c.continue_grant uri tok resp).1.headers
        = [("Authorization", "GNAP " ++ tok), ("Content-Type", "application/json")]
    ∧ (rc.create_incoming_payment wa amt ea md resp).1.headers
        = [("Authorization", "GNAP " ++ rc.access_token), ("Content-Type", "application/json")]
    ∧ (rc.get_incoming_payment pid resp).1.headers
        = [("Authorization", "GNAP " ++ rc.access_token), ("Accept", "application/json")]
    ∧ (rc.create_outgoing_payment wa qid md resp).1.headers
        = [("Authorization", "GNAP " ++ rc.access_token), ("Content-Type", "application/json")]
    ∧ (rc.get_outgoing_payment pid resp).1.headers
        = [("Authorization", "GNAP " ++ rc.access_token), ("Accept", "application/json")]
    ∧ lookupKey ((c.continue_grant uri tok resp).1.headers) "Signature" = none
    ∧ lookupKey ((c.continue_grant uri tok resp).1.headers) "Signature-Input" = none
    ∧ lookupKey ((rc.create_incoming_payment wa amt ea md resp).1.headers) "Signature" = none
    ∧ lookupKey ((rc.get_incoming_payment pid resp).1.headers) "Signature" = none
    ∧ lookupKey ((rc.create_outgoing_payment wa qid md resp).1.headers) "Signature" = none
    ∧ lookupKey ((rc.get_outgoing_payment pid resp).1.headers) "Signature" = none
    ∧ (lookupKey ((c.request_grant_non_interactive sha256 dumps timestamp [] "cid" resp).1.headers)
        "Signature").isSome = true
    ∧ (lookupKey ((c2.create_outgoing_payment sha256 dumps timestamp qid wa md resp).1.headers)
        "Signature").isSome = true
    ∧ (∃ req res, c2.create_quote sha256 dumps timestamp wa
          (some [("value", Json.str "1")]) none resp = .ok (req, res)
        ∧ (lookupKey req.headers "Signature").isSome = true)
    ∧ (c2.get_wallet_info none resp).1.headers = [("Accept", "application/json")] := by
  refine ⟨rfl, rfl, rfl, rfl, rfl, rfl, rfl, rfl, rfl, rfl, rfl, ?_, ?_, ?_, rfl⟩
  · simp [GNAPClient.request_grant_non_interactive, GNAPClient.sign_request, lookupKey]
  · simp [OpenPaymentsClient.create_outgoing_payment, OpenPaymentsClient.sign_request,
      dictInsert, lookupKey]
  · refine ⟨_, _, rfl, ?_⟩
    simp [OpenPaymentsClient.sign_request, dictInsert, lookupKey]

/-- C8: with the timestamp and key fixed, the signing headers are determined
by (method, url, body) alone — two clients holding the same key and key id
produce identical headers — and the emitted Signature header parses back
into the triple of keyId, the algorithm tag ed25519 and the base64
signature. -/
theorem sign_deterministic_and_parseable (sha256 : List Nat → List Nat)
    (c1 c2 : GNAPClient) (method url timestamp : String) (body : Option String)
    (hkey : c1.private_key = c2.private_key)
    (hkid : c1.client_key_id = c2.client_key_id)
    (hq : ∀ ch ∈ c1.client_key_id.data, ch ≠ '"') :
    c1.sign_request sha256 method url timestamp body
        = c2.sign_request sha256 method url timestamp body
    ∧ parseSignatureHeader (signatureHeaderValue c1.client_key_id
          (b64encode (c1.private_key.sign
            (utf8Encode (content_to_sign sha256 method url timestamp body)))))
        = some (c1.client_key_id, "ed25519",
            b64encode (c1.private_key.sign
              (utf8Encode (content_to_sign sha256 method url timestamp body))))
    ∧ lookupKey (c1.sign_request sha256 method url timestamp body) "Signature"
        = some (signatureHeaderValue c1.client_key_id
            (b64encode (c1.private_key.sign
              (utf8Encode (content_to_sign sha256 method url timestamp body))))) := by
  refine ⟨?_, ?_, ?_⟩
  · simp [GNAPClient.sign_request, hkey, hkid]
  · exact parseSignatureHeader_of_value _ _ hq (b64encode_no_quote _)
  · simp [GNAPClient.sign_request, lookupKey]

/-- C8 witness: concrete parse of a concrete emitted Signature header. -/
theorem sign_deterministic_and_parseable_witness :
    parseSignatureHeader (signatureHeaderValue "key-1"
        (b64encode (sampleKey.sign (utf8Encode (content_to_sign (fun bs => bs) "GET" "u" "T" none)))))
      = some ("key-1", "ed25519", "R0VUCnUKVA==") := by
  have h := (sign_deterministic_and_parseable (fun bs => bs) sampleGNAP sampleGNAP
    "GET" "u" "T" none rfl rfl (by decide)).2.1
  exact h.trans rfl

/-- C9 counterexample: when the server response omits the completed or
failed field, the create operations substitute False instead of surfacing
the absence. -/
theorem completed_defaulted_when_absent :
    (Json.obj [("id", Json.str "https://rs/ip/1")]).lookupField "completed" = none
    ∧ (sampleRC.create_incoming_payment "https://ilp.example/bob" Json.null none none
        ⟨201, Json.obj [("id", Json.str "https://rs/ip/1")]⟩).2
      = .ok { wallet_address := "https://ilp.example/bob", incoming_amount := Json.null,
              expires_at := none, metadata := none,
              id := some (Json.str "https://rs/ip/1"), completed := Json.bool false,
              received_amount := none }
    ∧ (sampleRC.create_outgoing_payment "https://ilp.example/bob" "q1" none
        ⟨201, Json.obj []⟩).2
      = .ok { wallet_address := "https://ilp.example/bob", quote_id := "q1", metadata := none,
              id := none, sent_amount := none, failed := Json.bool false } :=
  ⟨rfl, rfl, rfl⟩

/-- C9 amended: on a 2xx creation response the reported completed / failed
value is the one present in the server body when the field is present, and
the substituted default False when the server omits it; the get operations
return the raw body unchanged. -/
theorem completed_failed_copied_or_defaulted (c : ResourceClient) (wa qid pid : String)
    (amt : Json) (ea : Option String) (md : Option (List (String × Json)))
    (resp : HttpResponse) (h2xx : 200 ≤ resp.status ∧ resp.status < 300) :
    (∃ p, (c.create_incoming_payment wa amt ea md resp).2 = .ok p
       ∧ p.completed = (resp.body.lookupField "completed").getD (Json.bool false))
    ∧ (∃ q, (c.create_outgoing_payment wa qid md resp).2 = .ok q
       ∧ q.failed = (resp.body.lookupField "failed").getD (Json.bool false))
    ∧ (c.get_incoming_payment pid resp).2 = .ok resp.body
    ∧ (c.get_outgoing_payment pid resp).2 = .ok resp.body := by
  have hin : (c.create_incoming_payment wa amt ea md resp).2
      = .ok { wallet_address := wa
              incoming_amount := amt
              expires_at := ea
              metadata := md
              id := resp.body.lookupField "id"
              completed := (resp.body.lookupField "completed").getD (Json.bool false)
              received_amount := resp.body.lookupField "receivedAmount" } := by
    simp [ResourceClient.create_incoming_payment, raise_for_status, h2xx]
  have hout : (c.create_outgoing_payment wa qid md resp).2
      = .ok { wallet_address := wa
              quote_id := qid
              metadata := md
              id := resp.body.lookupField "id"
              sent_amount := resp.body.lookupField "sentAmount"
              failed := (resp.body.lookupField "failed").getD (Json.bool false) } := by
    simp [ResourceClient.create_outgoing_payment, raise_for_status, h2xx]
  refine ⟨⟨_, hin, rfl⟩, ⟨_, hout, rfl⟩, ?_, ?_⟩
  · simp [ResourceClient.get_incoming_payment, raise_for_status, h2xx]
  · simp [ResourceClient.get_outgoing_payment, raise_for_status, h2xx]

/-- C9 amended witness: a present completed value is copied verbatim. -/
theorem completed_failed_copied_or_defaulted_witness :
    ∃ p : IncomingPayment,
      (sampleRC.create_incoming_payment "https://ilp.example/bob" Json.null none none
          ⟨201, Json.obj [("completed", Json.bool true)]⟩).2 = .ok p
      ∧ p.completed = Json.bool true :=
  (completed_failed_copied_or_defaulted sampleRC
    "https://ilp.example/bob" "q1" "p1" Json.null none none
    ⟨201, Json.obj [("completed", Json.bool true)]⟩ (by decide)).1

/-- C10: signing with a body equal to the empty string produces exactly the
same canonical string and headers as signing with no body at all, in both
client implementations; the digest line is appended only for a non-empty
body. -/
theorem empty_body_signs_as_no_body (sha256 : List Nat → List Nat)
    (c : GNAPClient) (c2 : OpenPaymentsClient) (method url timestamp : String)
    (headers0 : List (String × String)) :
    content_to_sign sha256 method url timestamp (some "")
        = content_to_sign sha256 method url timestamp none
    ∧ c.sign_request sha256 method url timestamp (some "")
        = c.sign_request sha256 method url timestamp none
    ∧ c2.sign_request sha256 method url timestamp (some "") headers0
        = c2.sign_request sha256 method url timestamp none headers0
    ∧ (∀ b : String, b ≠ "" →
        content_to_sign sha256 method url timestamp (some b)
          = content_to_sign sha256 method url timestamp none ++ "\n"
            ++ b64encode (sha256 (utf8Encode b))) := by
  refine ⟨rfl, rfl, rfl, ?_⟩
  intro b hb
  simp [content_to_sign, hb]

/-- C10 witness: concrete equality of the two signing calls and a concrete
non-empty body growing the canonical string. -/
theorem empty_body_signs_as_no_body_witness :
    sampleGNAP.sign_request (fun bs => bs) "POST" "u" "T" (some "")
        = sampleGNAP.sign_request (fun bs => bs) "POST" "u" "T" none
    ∧ content_to_sign (fun bs => bs) "POST" "u" "T" (some "x")
        = content_to_sign (fun bs => bs) "POST" "u" "T" none ++ "\n" ++ b64encode (utf8Encode "x") := by
  have h := empty_body_signs_as_no_body (fun bs => bs) sampleGNAP sampleOP "POST" "u" "T" []
  exact ⟨h.2.1, h.2.2.2 "x" (by decide)⟩
